import Mathlib

/-
Verification of the dual-backend simulation orchestrator in `main.py`
(`run_kappa_simulation` and `run_with_kappybara`).

Modelling choices (shallow embedding):
* The Python functions return `json.dumps({"stdout": ..., "stderr": ..., "output": ...})`.
  JSON encoding of a fixed three-string-field dict is injective and carries no logic,
  so the model returns the record `SimResult` directly.
* External effects (temporary directory creation, file writes/reads, the KaSim
  subprocess, the kappybara library, the ambient RNG state of Python's `random`
  module, `traceback.format_exc`) are supplied by explicit environment records.
  One invocation consults the environment once per effect, mirroring the single
  call site of each effect in the source.
* Python stream objects (`sys.stdout` / `sys.stderr`) are modelled by their
  identity, a natural number tag; `sys.__stdout__` / `sys.__stderr__` are the
  fixed tags 0 and 1.  The process-wide `(sys.stdout, sys.stderr)` pair is
  threaded through the functions as explicit state.
* Python floats are modelled as rationals; Python ints as `Int`.
* A function call either returns a value, raises an exception (carrying the
  `str(e)` message), or hangs (the `while system.time < time_limit` loop has no
  iteration cap).  Divergence is modelled with explicit fuel: exhausting the
  fuel stands for non-termination of the loop.
-/

namespace KappybaraMCP

/-- Result record of one orchestration call: the fields of the JSON object
returned by `run_kappa_simulation` / `run_with_kappybara`. -/
structure SimResult where
  stdout : String
  stderr : String
  output : String
deriving DecidableEq, Repr

/-- Identity tag of a Python stream object. -/
abbrev StreamId := Nat

/-- The process-wide `(sys.stdout, sys.stderr)` pair. -/
abbrev Streams := StreamId × StreamId

/-- Identity of the interpreter default stream `sys.__stdout__`. -/
def dunderStdout : StreamId := 0

/-- Identity of the interpreter default stream `sys.__stderr__`. -/
def dunderStderr : StreamId := 1

/-- Outcome of evaluating a Python expression or call: a value, a propagating
exception (with its `str(e)` text), or divergence. -/
inductive Outcome (α : Type) where
  | ok (a : α)
  | raised (msg : String)
  | hang
deriving DecidableEq, Repr

/-- Outcome of a call into the external kappybara library
(`System.from_ka` or `system.update()`): either a value together with the text
the call wrote to the redirected stdout/stderr, or an exception (message plus
text written before the exception). -/
inductive ExtResult (α : Type) where
  | ok (a : α) (out : String) (err : String)
  | exn (msg : String) (out : String) (err : String)
deriving DecidableEq, Repr

/-- State of a kappybara `System` object, as far as the orchestrator observes
it: the elapsed simulated time (`system.time`) and an opaque internal state. -/
structure KSystem where
  time : ℚ
  inner : Nat
deriving DecidableEq, Repr

/-- Behaviour of the kappybara library, treated as an opaque deterministic
collaborator parameterised over the global `random`-module state (a `Nat`):
`seedState s` is the RNG state after `rand.seed(s)`; `from_ka` parses a model
source; `update` performs one simulation step; `csvOf` is
`system.monitor.dataframe` followed by `df.to_csv(csv_buffer, index=False)`. -/
structure Kappybara where
  seedState : Int → Nat
  from_ka : String → Nat → ExtResult (KSystem × Nat)
  update : KSystem → Nat → ExtResult (KSystem × Nat)
  csvOf : KSystem → String

/-- Environment of one `run_with_kappybara` call: the result of
`from kappybara.system import System` (an `ImportError` message, or the
library), the ambient state of the global `random` module at entry, and the
rendering of `traceback.format_exc()` for an exception message. -/
structure KEnv where
  importResult : Except String Kappybara
  entryRng : Nat
  traceback : String → String

/-- Outcome of `subprocess.run(kasim_cmd, ...)`: the binary is missing
(`FileNotFoundError`), the 300 s timeout fires (`subprocess.TimeoutExpired`),
the process completes with an exit status and captured streams, or some other
exception propagates. -/
inductive SubprocResult where
  | notFound
  | timeout
  | completed (returncode : Int) (stdout : String) (stderr : String)
  | raises (msg : String)

/-- Environment of one `run_kappa_simulation` call: outcomes of the temporary
directory creation, the model-source write, the subprocess invocation, the
`output_file.exists()` probe with the subsequent `read_text()` (its `.error`
case models a non-`FileNotFoundError` exception from the read), and the
environment handed to the fallback. -/
structure KaEnv where
  tmpdir : Except String Unit
  writeInput : Except String Unit
  subproc : SubprocResult
  outputExists : Bool
  readOutput : Except String String
  kenv : KEnv

/-- The RNG state the library sees: `rand.seed(seed)` is called exactly when a
seed was provided, otherwise the ambient state of the `random` module is used. -/
def initialRng (env : KEnv) (lib : Kappybara) (seed : Option Int) : Nat :=
  match seed with
  | some s => lib.seedState s
  | none => env.entryRng

/-- The `while system.time < time_limit: system.update()` loop, accumulating
the text written to the redirected streams.  `fuel` bounds the number of
iterations; `none` models non-termination of the source loop. -/
def simLoop (lib : Kappybara) (time_limit : ℚ) :
    Nat → KSystem → Nat → String → String → Option (ExtResult (KSystem × Nat))
  | 0, system, rng, out, err =>
    if system.time < time_limit then none
    else some (.ok (system, rng) out err)
  | fuel + 1, system, rng, out, err =>
    if system.time < time_limit then
      match lib.update system rng with
      | .ok (system', rng') o e =>
        simLoop lib time_limit fuel system' rng' (out ++ o) (err ++ e)
      | .exn m o e => some (.exn m (out ++ o) (err ++ e))
    else some (.ok (system, rng) out err)

/-- Message of the `except ImportError` handler of `run_with_kappybara`. -/
def importFailMsg (msg : String) : String :=
  "Failed to import kappybara: " ++ msg ++ ". Please install kappybara: pip install kappybara"

/-- Message of the `except Exception` handler of `run_with_kappybara`:
exception text followed by `traceback.format_exc()`. -/
def kappybaraFailMsg (env : KEnv) (msg : String) : String :=
  "Kappybara simulation failed: " ++ msg ++ "\n" ++ env.traceback msg

/-- Model of `run_with_kappybara(kappa_code, time_limit, points, seed, tmppath)`.

The function never lets an exception propagate (`except ImportError` /
`except Exception` cover the whole body), so its outcome is `none` (the
stepping loop diverges) or `some` of the result record together with the final
`(sys.stdout, sys.stderr)` pair.  `streams` is that pair at call entry
(`old_stdout` / `old_stderr`).

Net stream effect per exit path, as in the source: on the success path the
inner `finally` restores the saved streams; on the parse/stepping exception
path the `finally` also restores them, but the `except Exception` handler then
assigns `sys.__stdout__` / `sys.__stderr__`; on the import-failure path the
redirection never happened, yet the `except ImportError` handler assigns the
interpreter defaults as well.

The `points` and `tmppath` parameters are received and never read, as in the
source. -/
def run_with_kappybara (env : KEnv) (fuel : Nat) (kappa_code : String)
    (time_limit : ℚ) (points : Int) (seed : Option Int) (tmppath : String)
    (streams : Streams) : Option (SimResult × Streams) :=
  match env.importResult with
  | .error msg =>
    some ({ stdout := "", stderr := importFailMsg msg, output := "" },
      (dunderStdout, dunderStderr))
  | .ok lib =>
    let rng := initialRng env lib seed
    match lib.from_ka kappa_code rng with
    | .exn m o _ =>
      some ({ stdout := o, stderr := kappybaraFailMsg env m, output := "" },
        (dunderStdout, dunderStderr))
    | .ok (system, rng') o e =>
      match simLoop lib time_limit fuel system rng' o e with
      | none => none
      | some (.exn m out _) =>
        some ({ stdout := out, stderr := kappybaraFailMsg env m, output := "" },
          (dunderStdout, dunderStderr))
      | some (.ok (systemF, _) out err) =>
        some ({ stdout := out, stderr := err, output := lib.csvOf systemF }, streams)

/-- Fixed response of the `except subprocess.TimeoutExpired` handler. -/
def timeoutResult : SimResult :=
  { stdout := "", stderr := "Simulation timed out after 5 minutes", output := "" }

/-- Response of the outer `except Exception` handler of `run_kappa_simulation`. -/
def simulationFailedResult (msg : String) : SimResult :=
  { stdout := "", stderr := "Simulation failed: " ++ msg, output := "" }

/-- Lift the fallback's outcome into `Outcome` (the fallback itself never
raises, it can only return or hang). -/
def ofFallback (r : Option (SimResult × Streams)) : Outcome (SimResult × Streams) :=
  match r with
  | none => .hang
  | some rs => .ok rs

/-- Body of `run_kappa_simulation` inside the outer `try` (temporary-directory
staging, subprocess invocation, dispatch).  Exceptions not caught by the inner
handlers propagate as `.raised`. -/
def kasimBody (env : KaEnv) (fuel : Nat) (kappa_code : String) (time_limit : ℚ)
    (points : Int) (seed : Option Int) (streams : Streams) :
    Outcome (SimResult × Streams) :=
  match env.tmpdir with
  | .error m => .raised m
  | .ok _ =>
    match env.writeInput with
    | .error m => .raised m
    | .ok _ =>
      match env.subproc with
      | .raises m => .raised m
      | .timeout => .ok (timeoutResult, streams)
      | .notFound =>
        ofFallback (run_with_kappybara env.kenv fuel kappa_code time_limit points seed "tmp" streams)
      | .completed rc out err =>
        if rc = 0 ∧ env.outputExists then
          match env.readOutput with
          | .error m => .raised m
          | .ok csv => .ok ({ stdout := out, stderr := err, output := csv }, streams)
        else
          ofFallback (run_with_kappybara env.kenv fuel kappa_code time_limit points seed "tmp" streams)

/-- Model of `run_kappa_simulation(kappa_code, time_limit, points, seed)`:
the body wrapped in the outer `except Exception` handler, which converts any
propagating exception into a result with a "Simulation failed: ..." stderr.
Every `.raised` point of the body occurs while the streams still equal the
entry pair, so the handler returns with `streams` unchanged. -/
def run_kappa_simulation (env : KaEnv) (fuel : Nat) (kappa_code : String)
    (time_limit : ℚ) (points : Int) (seed : Option Int) (streams : Streams) :
    Outcome (SimResult × Streams) :=
  match kasimBody env fuel kappa_code time_limit points seed streams with
  | .raised m => .ok (simulationFailedResult m, streams)
  | o => o

/-- A sample kappybara library behaviour, used to instantiate theorems with
hypotheses at concrete inputs. -/
def sampleLib : Kappybara where
  seedState := fun s => s.natAbs
  from_ka := fun _ rng => .ok (⟨0, 0⟩, rng) "" ""
  update := fun system rng =>
    .ok ({ system with time := 1000, inner := system.inner + 1 }, rng) "" ""
  csvOf := fun system => "time,obs\n" ++ toString system.inner

/-- A sample fallback environment with the kappybara library installed. -/
def sampleKEnv : KEnv where
  importResult := .ok sampleLib
  entryRng := 17
  traceback := fun m => "Traceback (most recent call last): " ++ m

/-- A sample orchestration environment where the KaSim binary is missing. -/
def sampleKaEnv : KaEnv where
  tmpdir := .ok ()
  writeInput := .ok ()
  subproc := .notFound
  outputExists := false
  readOutput := .error "read failed"
  kenv := sampleKEnv

/-- A string with a non-empty left part under append is non-empty. -/
theorem append_left_ne_empty {a : String} (b : String) (ha : a ≠ "") : a ++ b ≠ "" := by
  intro h
  apply ha
  have hd : a.data ++ b.data = [] := congrArg String.data h
  exact String.ext (List.append_eq_nil.mp hd).1

/-- C1: `run_kappa_simulation` never lets an exception propagate to its
caller: its outcome is a normal return (or divergence of the unbounded
stepping loop, which is not an exception), and every exception raised by the
staging/subprocess body is converted into a returned result whose stderr field
carries the failure message. -/
theorem run_kappa_simulation_never_raises (env : KaEnv) (fuel : Nat) (kappa_code : String)
    (time_limit : ℚ) (points : Int) (seed : Option Int) (streams : Streams) :
    ((∃ r, run_kappa_simulation env fuel kappa_code time_limit points seed streams = .ok r) ∨
      run_kappa_simulation env fuel kappa_code time_limit points seed streams = .hang) ∧
    (∀ m, kasimBody env fuel kappa_code time_limit points seed streams = .raised m →
      run_kappa_simulation env fuel kappa_code time_limit points seed streams =
        .ok (simulationFailedResult m, streams)) := by
  constructor
  · rcases hb : kasimBody env fuel kappa_code time_limit points seed streams with r | m | _
    · exact Or.inl ⟨r, by simp [run_kappa_simulation, hb]⟩
    · exact Or.inl ⟨(simulationFailedResult m, streams), by simp [run_kappa_simulation, hb]⟩
    · exact Or.inr (by simp [run_kappa_simulation, hb])
  · intro m h
    simp [run_kappa_simulation, h]

/-- Witness for C1: a concrete environment whose temporary-directory creation
raises is converted into a "Simulation failed: ..." result. -/
theorem run_kappa_simulation_never_raises_witness :
    run_kappa_simulation { sampleKaEnv with tmpdir := .error "disk full" } 3 "m" 10 200 none
        (4, 5) =
      .ok (simulationFailedResult "disk full", (4, 5)) :=
  (run_kappa_simulation_never_raises { sampleKaEnv with tmpdir := .error "disk full" } 3 "m" 10
    200 none (4, 5)).2 "disk full" rfl

/-- C3: a subprocess timeout is terminal: the result has empty stdout, stderr
exactly "Simulation timed out after 5 minutes" and empty csv output, and the
in-process fallback is never invoked (the outcome is the same for every
fallback environment and fuel). -/
theorem timeout_terminal (env : KaEnv) (fuel : Nat) (kappa_code : String) (time_limit : ℚ)
    (points : Int) (seed : Option Int) (streams : Streams)
    (htd : env.tmpdir = .ok ()) (hwr : env.writeInput = .ok ())
    (hsp : env.subproc = .timeout) :
    run_kappa_simulation env fuel kappa_code time_limit points seed streams =
      .ok ({ stdout := "", stderr := "Simulation timed out after 5 minutes", output := "" },
        streams) ∧
    ∀ (kenv' : KEnv) (fuel' : Nat),
      run_kappa_simulation { env with kenv := kenv' } fuel' kappa_code time_limit points seed
          streams =
        .ok ({ stdout := "", stderr := "Simulation timed out after 5 minutes", output := "" },
          streams) := by
  refine ⟨?_, fun kenv' fuel' => ?_⟩ <;>
    simp [run_kappa_simulation, kasimBody, htd, hwr, hsp, timeoutResult]

/-- Witness for C3 at a concrete timing-out environment. -/
theorem timeout_terminal_witness :
    run_kappa_simulation { sampleKaEnv with subproc := .timeout } 7 "m" 10 200 (some 1)
        (4, 5) =
      .ok ({ stdout := "", stderr := "Simulation timed out after 5 minutes", output := "" },
        (4, 5)) :=
  (timeout_terminal { sampleKaEnv with subproc := .timeout } 7 "m" 10 200 (some 1) (4, 5)
    rfl rfl rfl).1

/-- C7: the in-process fallback never reads the `points` parameter: two calls
differing only in `points` return identical results. -/
theorem points_independence (env : KEnv) (fuel : Nat) (kappa_code : String)
    (time_limit : ℚ) (p1 p2 : Int) (seed : Option Int) (tmppath : String)
    (streams : Streams) :
    run_with_kappybara env fuel kappa_code time_limit p1 seed tmppath streams =
      run_with_kappybara env fuel kappa_code time_limit p2 seed tmppath streams := rfl

/-- C8: with an explicit seed, the fallback's behaviour does not depend on the
ambient state of the global random number generator: two invocations with the
same library, same arguments and the same explicit seed, but different ambient
RNG states, return identical results (hence identical csv output). -/
theorem seed_determinism (imp : Except String Kappybara) (r1 r2 : Nat)
    (tb : String → String) (fuel : Nat) (kappa_code : String) (time_limit : ℚ)
    (points : Int) (s : Int) (tmppath : String) (streams : Streams) :
    run_with_kappybara ⟨imp, r1, tb⟩ fuel kappa_code time_limit points (some s) tmppath
        streams =
      run_with_kappybara ⟨imp, r2, tb⟩ fuel kappa_code time_limit points (some s) tmppath
        streams := by
  cases imp <;> rfl

/-- A sample environment where KaSim succeeds and leaves an output file. -/
def okKaEnv : KaEnv :=
  { sampleKaEnv with
    subproc := .completed 0 "so" "se", outputExists := true, readOutput := .ok "csvdata" }

/-- A sample environment where KaSim exits with a non-zero status. -/
def failKaEnv : KaEnv := { sampleKaEnv with subproc := .completed 2 "so" "se" }

/-- C4: primary-path dispatch: zero exit with an existing output file is
terminal success returning the file contents and the captured process streams;
a missing binary falls through to the in-process fallback; a non-zero exit or
a zero exit without an output file also falls through to the fallback. -/
theorem primary_dispatch (env : KaEnv) (fuel : Nat) (kappa_code : String)
    (time_limit : ℚ) (points : Int) (seed : Option Int) (streams : Streams)
    (rc : Int) (out err csv : String)
    (htd : env.tmpdir = .ok ()) (hwr : env.writeInput = .ok ()) :
    (env.subproc = .completed rc out err → rc = 0 → env.outputExists = true →
      env.readOutput = .ok csv →
      run_kappa_simulation env fuel kappa_code time_limit points seed streams =
        .ok ({ stdout := out, stderr := err, output := csv }, streams)) ∧
    (env.subproc = .notFound →
      run_kappa_simulation env fuel kappa_code time_limit points seed streams =
        ofFallback
          (run_with_kappybara env.kenv fuel kappa_code time_limit points seed "tmp"
            streams)) ∧
    (env.subproc = .completed rc out err → ¬(rc = 0 ∧ env.outputExists = true) →
      run_kappa_simulation env fuel kappa_code time_limit points seed streams =
        ofFallback
          (run_with_kappybara env.kenv fuel kappa_code time_limit points seed "tmp"
            streams)) := by
  refine ⟨fun hsp hrc hex hrd => ?_, fun hsp => ?_, fun hsp hfail => ?_⟩
  · subst hrc
    simp [run_kappa_simulation, kasimBody, htd, hwr, hsp, hex, hrd]
  · rcases hk : run_with_kappybara env.kenv fuel kappa_code time_limit points seed "tmp"
        streams with _ | rs <;>
      simp [run_kappa_simulation, kasimBody, htd, hwr, hsp, ofFallback, hk]
  · rcases hk : run_with_kappybara env.kenv fuel kappa_code time_limit points seed "tmp"
        streams with _ | rs <;>
      simp [run_kappa_simulation, kasimBody, htd, hwr, hsp, ofFallback, hk, hfail]

/-- Witness for C4 at three concrete environments, one per dispatch case. -/
theorem primary_dispatch_witness :
    run_kappa_simulation okKaEnv 2 "m" 10 200 none (4, 5) =
      .ok ({ stdout := "so", stderr := "se", output := "csvdata" }, (4, 5)) ∧
    run_kappa_simulation sampleKaEnv 2 "m" 10 200 none (4, 5) =
      ofFallback (run_with_kappybara sampleKEnv 2 "m" 10 200 none "tmp" (4, 5)) ∧
    run_kappa_simulation failKaEnv 2 "m" 10 200 none (4, 5) =
      ofFallback (run_with_kappybara sampleKEnv 2 "m" 10 200 none "tmp" (4, 5)) :=
  ⟨(primary_dispatch okKaEnv 2 "m" 10 200 none (4, 5) 0 "so" "se" "csvdata" rfl rfl).1
      rfl rfl rfl rfl,
    (primary_dispatch sampleKaEnv 2 "m" 10 200 none (4, 5) 0 "" "" "" rfl rfl).2.1 rfl,
    (primary_dispatch failKaEnv 2 "m" 10 200 none (4, 5) 2 "so" "se" "" rfl rfl).2.2 rfl
      (by decide)⟩

/-- C9: when the external process ran but failed and the orchestrator falls
back, the failed process's captured stdout/stderr are discarded: the outcome
equals the fallback's outcome, and is unchanged under any other captured
process streams. -/
theorem fallback_discards_primary_diagnostics (env : KaEnv) (fuel : Nat)
    (kappa_code : String) (time_limit : ℚ) (points : Int) (seed : Option Int)
    (streams : Streams) (rc : Int) (out err : String)
    (htd : env.tmpdir = .ok ()) (hwr : env.writeInput = .ok ())
    (hsp : env.subproc = .completed rc out err)
    (hfail : ¬(rc = 0 ∧ env.outputExists = true)) :
    run_kappa_simulation env fuel kappa_code time_limit points seed streams =
      ofFallback
        (run_with_kappybara env.kenv fuel kappa_code time_limit points seed "tmp"
          streams) ∧
    ∀ out' err',
      run_kappa_simulation { env with subproc := .completed rc out' err' } fuel kappa_code
          time_limit points seed streams =
        run_kappa_simulation env fuel kappa_code time_limit points seed streams := by
  have hbase : ∀ (o e : String),
      run_kappa_simulation { env with subproc := .completed rc o e } fuel kappa_code
          time_limit points seed streams =
        ofFallback
          (run_with_kappybara env.kenv fuel kappa_code time_limit points seed "tmp"
            streams) := by
    intro o e
    rcases hk : run_with_kappybara env.kenv fuel kappa_code time_limit points seed "tmp"
        streams with _ | rs <;>
      simp [run_kappa_simulation, kasimBody, htd, hwr, ofFallback, hk, hfail]
  have henv : { env with subproc := .completed rc out err } = env := by
    cases env
    simp_all
  constructor
  · rw [← henv]
    exact hbase out err
  · intro out' err'
    rw [← henv]
    rw [hbase out' err', hbase out err]

/-- Witness for C9 at a concrete failing-subprocess environment. -/
theorem fallback_discards_primary_diagnostics_witness :
    run_kappa_simulation failKaEnv 2 "m" 10 200 none (4, 5) =
      ofFallback (run_with_kappybara sampleKEnv 2 "m" 10 200 none "tmp" (4, 5)) ∧
    run_kappa_simulation { failKaEnv with subproc := .completed 2 "OTHER" "NOISE" } 2 "m"
        10 200 none (4, 5) =
      run_kappa_simulation failKaEnv 2 "m" 10 200 none (4, 5) :=
  ⟨(fallback_discards_primary_diagnostics failKaEnv 2 "m" 10 200 none (4, 5) 2 "so" "se"
      rfl rfl rfl (by decide)).1,
    (fallback_discards_primary_diagnostics failKaEnv 2 "m" 10 200 none (4, 5) 2 "so" "se"
      rfl rfl rfl (by decide)).2 "OTHER" "NOISE"⟩

/-- C10: no validation rejects a non-positive time limit: whenever the parsed
system's initial time already meets the limit, the fallback returns a
success-shaped result whose csv output is the serialization of the initial
observable table and whose stderr is what parsing emitted, and the outcome
does not depend on the update (stepping) operation at all (zero steps). -/
theorem nonpositive_time_limit_accepted (env : KEnv) (lib : Kappybara) (fuel : Nat)
    (kappa_code : String) (time_limit : ℚ) (points : Int) (seed : Option Int)
    (tmppath : String) (streams : Streams) (system : KSystem) (rng' : Nat)
    (o e : String)
    (himp : env.importResult = .ok lib)
    (hparse : lib.from_ka kappa_code (initialRng env lib seed) = .ok (system, rng') o e)
    (htime : ¬ system.time < time_limit) :
    run_with_kappybara env fuel kappa_code time_limit points seed tmppath streams =
      some ({ stdout := o, stderr := e, output := lib.csvOf system }, streams) ∧
    ∀ upd',
      run_with_kappybara { env with importResult := .ok { lib with update := upd' } } fuel
          kappa_code time_limit points seed tmppath streams =
        run_with_kappybara env fuel kappa_code time_limit points seed tmppath streams := by
  have hloop : ∀ (l : Kappybara) (rng0 : Nat),
      simLoop l time_limit fuel system rng0 o e = some (.ok (system, rng0) o e) := by
    intro l rng0
    cases fuel <;> simp [simLoop, htime]
  constructor
  · simp [run_with_kappybara, himp, hparse, hloop]
  · intro upd'
    have hinit : initialRng { env with importResult := .ok { lib with update := upd' } }
        { lib with update := upd' } seed = initialRng env lib seed := by
      cases seed <;> rfl
    simp [run_with_kappybara, himp, hparse, hloop, hinit]

/-- Witness for C10: time limit zero, initial simulated time zero: the loop
body never runs and the initial table is serialized. -/
theorem nonpositive_time_limit_accepted_witness :
    run_with_kappybara sampleKEnv 5 "m" 0 200 none "tmp" (4, 5) =
      some ({ stdout := "", stderr := "", output := "time,obs\n0" }, (4, 5)) :=
  (nonpositive_time_limit_accepted sampleKEnv sampleLib 5 "m" 0 200 none "tmp" (4, 5)
    ⟨0, 0⟩ 17 "" "" rfl rfl (by decide)).1

/-- A sample library whose parser raises. -/
def parseFailLib : Kappybara :=
  { sampleLib with from_ka := fun _ _ => .exn "syntax error" "po" "" }

/-- A sample library whose stepping operation raises. -/
def stepFailLib : Kappybara :=
  { sampleLib with update := fun _ _ => .exn "step boom" "so" "" }

/-- A sample fallback environment with the parse-failing library. -/
def parseFailKEnv : KEnv := { sampleKEnv with importResult := .ok parseFailLib }

/-- A sample fallback environment with the step-failing library. -/
def stepFailKEnv : KEnv := { sampleKEnv with importResult := .ok stepFailLib }

/-- C6: an exception while parsing or stepping yields a terminal result with
empty csv output, the partial captured stdout, and a stderr that is the
exception text followed by the formatted stack trace (so it contains both). -/
theorem fallback_exception_reporting (env : KEnv) (lib : Kappybara) (fuel : Nat)
    (kappa_code : String) (time_limit : ℚ) (points : Int) (seed : Option Int)
    (tmppath : String) (streams : Streams)
    (himp : env.importResult = .ok lib) :
    (∀ m o e, lib.from_ka kappa_code (initialRng env lib seed) = .exn m o e →
      run_with_kappybara env fuel kappa_code time_limit points seed tmppath streams =
        some ({ stdout := o, stderr := kappybaraFailMsg env m, output := "" },
          (dunderStdout, dunderStderr))) ∧
    (∀ system rng' o e m out err,
      lib.from_ka kappa_code (initialRng env lib seed) = .ok (system, rng') o e →
      simLoop lib time_limit fuel system rng' o e = some (.exn m out err) →
      run_with_kappybara env fuel kappa_code time_limit points seed tmppath streams =
        some ({ stdout := out, stderr := kappybaraFailMsg env m, output := "" },
          (dunderStdout, dunderStderr))) ∧
    (∀ m, (∃ p q, kappybaraFailMsg env m = p ++ (m ++ q)) ∧
      ∃ p, kappybaraFailMsg env m = p ++ env.traceback m) := by
  refine ⟨fun m o e hparse => ?_,
    fun system rng' o e m out err hparse hloop => ?_, fun m => ⟨?_, ?_⟩⟩
  · simp [run_with_kappybara, himp, hparse]
  · simp [run_with_kappybara, himp, hparse, hloop]
  · exact ⟨"Kappybara simulation failed: ", "\n" ++ env.traceback m, by
      simp [kappybaraFailMsg, String.append_assoc]⟩
  · exact ⟨"Kappybara simulation failed: " ++ m ++ "\n", rfl⟩

/-- Witness for C6: a concrete parse failure and a concrete stepping failure. -/
theorem fallback_exception_reporting_witness :
    run_with_kappybara parseFailKEnv 3 "m" 1 200 none "tmp" (4, 5) =
      some ({ stdout := "po", stderr := kappybaraFailMsg parseFailKEnv "syntax error",
              output := "" }, (dunderStdout, dunderStderr)) ∧
    run_with_kappybara stepFailKEnv 3 "m" 1 200 none "tmp" (4, 5) =
      some ({ stdout := "so", stderr := kappybaraFailMsg stepFailKEnv "step boom",
              output := "" }, (dunderStdout, dunderStderr)) :=
  ⟨(fallback_exception_reporting parseFailKEnv parseFailLib 3 "m" 1 200 none "tmp" (4, 5)
      rfl).1 "syntax error" "po" "" rfl,
    (fallback_exception_reporting stepFailKEnv stepFailLib 3 "m" 1 200 none "tmp" (4, 5)
      rfl).2.1 ⟨0, 0⟩ 17 "" "" "step boom" "so" "" rfl rfl⟩

/-- On any returning path, the final process-wide stream pair is either the
entry pair (success path, restored by the inner `finally`) or the interpreter
defaults (all three failure paths, assigned by the exception handlers). -/
theorem run_with_kappybara_final_streams (env : KEnv) (fuel : Nat) (kappa_code : String)
    (time_limit : ℚ) (points : Int) (seed : Option Int) (tmppath : String)
    (streams : Streams) :
    run_with_kappybara env fuel kappa_code time_limit points seed tmppath streams =
      none ∨
    (∃ r, run_with_kappybara env fuel kappa_code time_limit points seed tmppath streams =
      some (r, streams)) ∨
    (∃ r, run_with_kappybara env fuel kappa_code time_limit points seed tmppath streams =
      some (r, (dunderStdout, dunderStderr))) := by
  unfold run_with_kappybara
  rcases env.importResult with msg | lib
  · exact Or.inr (Or.inr ⟨_, rfl⟩)
  · dsimp only
    rcases lib.from_ka kappa_code (initialRng env lib seed) with ⟨⟨system, rng'⟩, o, e⟩ |
      ⟨m, o, e⟩
    · dsimp only
      rcases simLoop lib time_limit fuel system rng' o e with _ | res
      · exact Or.inl rfl
      · rcases res with ⟨⟨systemF, rngF⟩, out, err⟩ | ⟨m, out, err⟩
        · exact Or.inr (Or.inl ⟨_, rfl⟩)
        · exact Or.inr (Or.inr ⟨_, rfl⟩)
    · exact Or.inr (Or.inr ⟨_, rfl⟩)

/-- A sample fallback environment where the kappybara import fails. -/
def noLibKEnv : KEnv := { sampleKEnv with importResult := .error "No module named kappybara" }

/-- Counterexample to C5: with pre-call streams `(7, 8)` and a failing import,
the call returns with the process streams set to the interpreter defaults
`(sys.__stdout__, sys.__stderr__) = (0, 1)`, which are not the pre-call
stream objects. -/
theorem streams_restore_counterexample :
    run_with_kappybara noLibKEnv 0 "m" 1 200 none "tmp" (7, 8) =
      some ({ stdout := "", stderr := importFailMsg "No module named kappybara",
              output := "" }, (dunderStdout, dunderStderr)) ∧
    ((dunderStdout, dunderStderr) : Streams) ≠ (7, 8) := ⟨rfl, by decide⟩

/-- C5 (amended): on every returning exit path the final process streams are
either the pre-call pair (success path) or the interpreter defaults (failure
paths); hence pre-call identity is guaranteed on every exit path exactly when
the pre-call streams are the interpreter defaults. -/
theorem streams_restore_amended (env : KEnv) (fuel : Nat) (kappa_code : String)
    (time_limit : ℚ) (points : Int) (seed : Option Int) (tmppath : String)
    (streams : Streams) (r : SimResult) (final : Streams)
    (h : run_with_kappybara env fuel kappa_code time_limit points seed tmppath streams =
      some (r, final)) :
    (final = streams ∨ final = (dunderStdout, dunderStderr)) ∧
    (streams = (dunderStdout, dunderStderr) → final = streams) := by
  have hcase : final = streams ∨ final = (dunderStdout, dunderStderr) := by
    rcases run_with_kappybara_final_streams env fuel kappa_code time_limit points seed
        tmppath streams with hn | ⟨r', hr⟩ | ⟨r', hr⟩
    · rw [hn] at h
      exact absurd h (by simp)
    · rw [hr] at h
      exact Or.inl (congrArg Prod.snd (Option.some.inj h)).symm
    · rw [hr] at h
      exact Or.inr (congrArg Prod.snd (Option.some.inj h)).symm
  exact ⟨hcase, fun hs => hcase.elim id fun hd => hd.trans hs.symm⟩

/-- Witness for the amended C5 at a concrete import-failure input. -/
theorem streams_restore_amended_witness :
    (((dunderStdout, dunderStderr) : Streams) = (7, 8) ∨
      ((dunderStdout, dunderStderr) : Streams) = (dunderStdout, dunderStderr)) ∧
    (((7, 8) : Streams) = (dunderStdout, dunderStderr) →
      ((dunderStdout, dunderStderr) : Streams) = (7, 8)) :=
  streams_restore_amended noLibKEnv 0 "m" 1 200 none "tmp" (7, 8)
    { stdout := "", stderr := importFailMsg "No module named kappybara", output := "" }
    (dunderStdout, dunderStderr) rfl

/-- Assumptions on the in-process library under which a successful run is
clean: successful parse/step calls write nothing to the redirected stderr, and
the dataframe serialization is never the empty string. -/
def StderrSilent (lib : Kappybara) : Prop :=
  (∀ kappa_code rng system rng' o e,
    lib.from_ka kappa_code rng = .ok (system, rng') o e → e = "") ∧
  (∀ system rng system' rng' o e,
    lib.update system rng = .ok (system', rng') o e → e = "") ∧
  (∀ system, lib.csvOf system ≠ "")

/-- The message of the import-failure handler is never empty. -/
theorem importFailMsg_ne_empty (msg : String) : importFailMsg msg ≠ "" :=
  append_left_ne_empty _ (append_left_ne_empty msg (by decide))

/-- The message of the parse/step exception handler is never empty. -/
theorem kappybaraFailMsg_ne_empty (env : KEnv) (msg : String) :
    kappybaraFailMsg env msg ≠ "" :=
  append_left_ne_empty _ (append_left_ne_empty _ (append_left_ne_empty msg (by decide)))

/-- The stderr of the outer exception handler's response is never empty. -/
theorem simulationFailedResult_stderr_ne_empty (msg : String) :
    (simulationFailedResult msg).stderr ≠ "" :=
  append_left_ne_empty msg (by decide)

/-- If no successful update step writes to stderr and the loop starts with an
empty stderr accumulation, a normal loop exit carries an empty stderr
accumulation. -/
theorem simLoop_ok_err (lib : Kappybara) (time_limit : ℚ)
    (hupd : ∀ system rng system' rng' o e,
      lib.update system rng = .ok (system', rng') o e → e = "") :
    ∀ (fuel : Nat) (system : KSystem) (rng : Nat) (out : String)
      (sr : KSystem × Nat) (out' err' : String),
      simLoop lib time_limit fuel system rng out "" = some (.ok sr out' err') →
        err' = "" := by
  intro fuel
  induction fuel with
  | zero =>
    intro system rng out sr out' err' h
    simp only [simLoop] at h
    split at h
    · exact Option.noConfusion h
    · have h' := Option.some.inj h
      injection h' with h1 h2 h3
      exact h3.symm
  | succ n ih =>
    intro system rng out sr out' err' h
    simp only [simLoop] at h
    split at h
    · split at h
      · rename_i system' rng' o e hu
        have he : e = "" := hupd _ _ _ _ _ _ hu
        subst he
        rw [show ("" : String) ++ "" = "" from rfl] at h
        exact ih _ _ _ _ _ _ h
      · exact ExtResult.noConfusion (Option.some.inj h)
    · have h' := Option.some.inj h
      injection h' with h1 h2 h3
      exact h3.symm

/-- Exclusivity at the fallback level: a returning fallback call whose library
is stderr-silent on success yields either non-empty output with empty stderr,
or empty output with non-empty stderr. -/
theorem run_with_kappybara_exclusive (env : KEnv) (fuel : Nat) (kappa_code : String)
    (time_limit : ℚ) (points : Int) (seed : Option Int) (tmppath : String)
    (streams : Streams) (r : SimResult) (final : Streams)
    (hlib : ∀ lib, env.importResult = .ok lib → StderrSilent lib)
    (h : run_with_kappybara env fuel kappa_code time_limit points seed tmppath streams =
      some (r, final)) :
    (r.output ≠ "" ∧ r.stderr = "") ∨ (r.output = "" ∧ r.stderr ≠ "") := by
  unfold run_with_kappybara at h
  rcases himp : env.importResult with msg | lib <;> rw [himp] at h <;> dsimp only at h
  · have h' : ({ stdout := "", stderr := importFailMsg msg, output := "" } : SimResult) =
        r := congrArg Prod.fst (Option.some.inj h)
    rw [← h']
    exact Or.inr ⟨rfl, importFailMsg_ne_empty msg⟩
  · obtain ⟨hfka, hupd, hcsv⟩ := hlib lib himp
    rcases hp : lib.from_ka kappa_code (initialRng env lib seed) with
        ⟨⟨system, rng'⟩, o, e⟩ | ⟨m, o, e⟩ <;> rw [hp] at h <;> dsimp only at h
    · have he : e = "" := hfka _ _ _ _ _ _ hp
      subst he
      rcases hsl : simLoop lib time_limit fuel system rng' o "" with _ | res <;>
        rw [hsl] at h
      · exact Option.noConfusion h
      · rcases res with ⟨⟨systemF, rngF⟩, out, err⟩ | ⟨m, out, err⟩ <;> dsimp only at h
        · have herr : err = "" :=
            simLoop_ok_err lib time_limit hupd fuel system rng' o (systemF, rngF) out err
              hsl
          have h' : ({ stdout := out, stderr := err, output := lib.csvOf systemF } :
              SimResult) = r := congrArg Prod.fst (Option.some.inj h)
          rw [← h']
          exact Or.inl ⟨hcsv systemF, herr⟩
        · have h' : ({ stdout := out, stderr := kappybaraFailMsg env m, output := "" } :
              SimResult) = r := congrArg Prod.fst (Option.some.inj h)
          rw [← h']
          exact Or.inr ⟨rfl, kappybaraFailMsg_ne_empty env m⟩
    · have h' : ({ stdout := o, stderr := kappybaraFailMsg env m, output := "" } :
          SimResult) = r := congrArg Prod.fst (Option.some.inj h)
      rw [← h']
      exact Or.inr ⟨rfl, kappybaraFailMsg_ne_empty env m⟩

/-- Exclusivity at the level of the staging/dispatch body. -/
theorem kasimBody_exclusive (env : KaEnv) (fuel : Nat) (kappa_code : String)
    (time_limit : ℚ) (points : Int) (seed : Option Int) (streams : Streams)
    (r : SimResult) (final : Streams)
    (hsub : ∀ rc out err, env.subproc = .completed rc out err → rc = 0 → err = "")
    (hread : ∀ csv, env.readOutput = .ok csv → csv ≠ "")
    (hlib : ∀ lib, env.kenv.importResult = .ok lib → StderrSilent lib)
    (h : kasimBody env fuel kappa_code time_limit points seed streams = .ok (r, final)) :
    (r.output ≠ "" ∧ r.stderr = "") ∨ (r.output = "" ∧ r.stderr ≠ "") := by
  unfold kasimBody at h
  rcases htd : env.tmpdir with m | u <;> rw [htd] at h <;> dsimp only at h
  · exact Outcome.noConfusion h
  · rcases hwr : env.writeInput with m | u' <;> rw [hwr] at h <;> dsimp only at h
    · exact Outcome.noConfusion h
    · rcases hsp : env.subproc with _ | _ | ⟨rc, out, err⟩ | m <;> rw [hsp] at h <;>
        dsimp only at h
      · rcases hk : run_with_kappybara env.kenv fuel kappa_code time_limit points seed
            "tmp" streams with _ | ⟨r0, s0⟩ <;> rw [hk] at h <;> dsimp only [ofFallback] at h
        · exact Outcome.noConfusion h
        · have hr : r0 = r := congrArg Prod.fst (Outcome.ok.inj h)
          rw [← hr]
          exact run_with_kappybara_exclusive env.kenv fuel kappa_code time_limit points
            seed "tmp" streams r0 s0 hlib hk
      · have hr : timeoutResult = r := congrArg Prod.fst (Outcome.ok.inj h)
        rw [← hr]
        exact Or.inr ⟨rfl, by decide⟩
      · split at h
        · rename_i hcond
          rcases hrd : env.readOutput with m | csv <;> rw [hrd] at h <;> dsimp only at h
          · exact Outcome.noConfusion h
          · have hr : ({ stdout := out, stderr := err, output := csv } : SimResult) = r :=
              congrArg Prod.fst (Outcome.ok.inj h)
            rw [← hr]
            exact Or.inl ⟨hread csv hrd, hsub rc out err hsp hcond.1⟩
        · rcases hk : run_with_kappybara env.kenv fuel kappa_code time_limit points seed
              "tmp" streams with _ | ⟨r0, s0⟩ <;> rw [hk] at h <;>
            dsimp only [ofFallback] at h
          · exact Outcome.noConfusion h
          · have hr : r0 = r := congrArg Prod.fst (Outcome.ok.inj h)
            rw [← hr]
            exact run_with_kappybara_exclusive env.kenv fuel kappa_code time_limit points
              seed "tmp" streams r0 s0 hlib hk
      · exact Outcome.noConfusion h

/-- A sample library that emits a warning to stderr while parsing succeeds and
whose initial simulated time already exceeds small time limits. -/
def warnLib : Kappybara :=
  { sampleLib with from_ka := fun _ rng => .ok (⟨5, 0⟩, rng) "" "warn" }

/-- A sample fallback environment with the warning-emitting library. -/
def warnKEnv : KEnv := { sampleKEnv with importResult := .ok warnLib }

/-- A sample orchestration environment falling back to the warning-emitting
library. -/
def warnKaEnv : KaEnv := { sampleKaEnv with kenv := warnKEnv }

/-- Counterexample to C2 as stated: a well-formed model (the parse succeeds
and the run completes normally) with positive time limit 1 and 200 points can
return BOTH a non-empty csv output and a non-empty stderr, because the
engine's stderr chatter is passed through verbatim on success. -/
theorem exclusivity_counterexample :
    run_kappa_simulation warnKaEnv 1 "m" 1 200 none (0, 1) =
      .ok ({ stdout := "", stderr := "warn", output := "time,obs\n0" }, (0, 1)) ∧
    ¬((("time,obs\n0" : String) ≠ "" ∧ ("warn" : String) = "") ∨
      (("time,obs\n0" : String) = "" ∧ ("warn" : String) ≠ "")) := by
  refine ⟨by decide, by decide⟩

/-- C2 (amended): every returning outcome of the orchestrator satisfies the
exclusivity invariant provided the backends are stderr-silent and productive
on success: KaSim writes nothing to stderr when it exits zero and its output
file is non-empty, and the in-process library is stderr-silent on success with
a never-empty serialization.  (Failure outcomes satisfy the invariant
unconditionally; without the success-side assumptions the invariant can fail,
see the counterexample.) -/
theorem exclusivity_amended (env : KaEnv) (fuel : Nat) (kappa_code : String)
    (time_limit : ℚ) (points : Int) (seed : Option Int) (streams : Streams)
    (r : SimResult) (final : Streams)
    (hsub : ∀ rc out err, env.subproc = .completed rc out err → rc = 0 → err = "")
    (hread : ∀ csv, env.readOutput = .ok csv → csv ≠ "")
    (hlib : ∀ lib, env.kenv.importResult = .ok lib → StderrSilent lib)
    (h : run_kappa_simulation env fuel kappa_code time_limit points seed streams =
      .ok (r, final)) :
    (r.output ≠ "" ∧ r.stderr = "") ∨ (r.output = "" ∧ r.stderr ≠ "") := by
  unfold run_kappa_simulation at h
  rcases hb : kasimBody env fuel kappa_code time_limit points seed streams with
      r' | m | _ <;> rw [hb] at h <;> dsimp only at h
  · have hr : r' = (r, final) := Outcome.ok.inj h
    rw [hr] at hb
    exact kasimBody_exclusive env fuel kappa_code time_limit points seed streams r final
      hsub hread hlib hb
  · have hr : simulationFailedResult m = r := congrArg Prod.fst (Outcome.ok.inj h)
    rw [← hr]
    exact Or.inr ⟨rfl, simulationFailedResult_stderr_ne_empty m⟩
  · exact Outcome.noConfusion h

/-- The sample library is stderr-silent with non-empty serializations. -/
theorem sampleLib_silent : StderrSilent sampleLib := by
  refine ⟨fun kappa_code rng system rng' o e hp => ?_,
    fun system rng system' rng' o e hu => ?_, fun system => ?_⟩
  · injection hp with h1 h2 h3
    exact h3.symm
  · injection hu with h1 h2 h3
    exact h3.symm
  · exact append_left_ne_empty _ (by decide)

/-- Witness for the amended C2: a concrete clean run through the fallback. -/
theorem exclusivity_amended_witness :
    run_kappa_simulation sampleKaEnv 1 "m" 1 200 none (4, 5) =
      .ok ({ stdout := "", stderr := "", output := "time,obs\n1" }, (4, 5)) ∧
    ((("time,obs\n1" : String) ≠ "" ∧ ("" : String) = "") ∨
      (("time,obs\n1" : String) = "" ∧ ("" : String) ≠ "")) :=
  ⟨by decide,
    exclusivity_amended sampleKaEnv 1 "m" 1 200 none (4, 5)
      { stdout := "", stderr := "", output := "time,obs\n1" } (4, 5)
      (fun rc out err hc => nomatch hc) (fun csv hc => nomatch hc)
      (fun lib hl => Except.ok.inj hl ▸ sampleLib_silent) (by decide)⟩

end KappybaraMCP
